import Mathlib

/-!
Verification development for the quota/limits enforcement and usage-accounting
subsystem of a multi-tenant SaaS backend (FastAPI + Redis + SQL).

The embedding translates:
  * `src/services/limits.py`          — rate limiter and idempotency guard
  * `src/repositories/usage_repo.py`  — usage ledger (upserts and period sums)
  * `src/repositories/project_repo.py`, `subscription_repo.py`
  * `src/api/v1/endpoints/query.py`   — the `ask` handler
  * `src/api/v1/endpoints/ingestion.py` — `create_project`, `upload_and_attach`
  * `src/api/v1/endpoints/billing.py` — the `subscribe` handler

Dates are modelled as day numbers (`Nat`), wall-clock time as seconds (`Nat`).
Redis is modelled as a key-value store with absolute expiry deadlines; a key
whose deadline has passed behaves as absent.
-/

namespace Saas

/-- Keys used in the shared Redis store: `rl:{tenant}:{window}` counters for
rate limiting and `idemp:{tenant}:{key}` claims for idempotency. -/
inductive RKey where
  | rl (tenant : String) (window : Nat)
  | idemp (tenant : String) (key : String)
deriving DecidableEq, Repr

/-- A stored Redis value: an integer payload plus an optional absolute expiry
deadline (in seconds).  A key is gone once `deadline ≤ now`. -/
structure RVal where
  value : Nat
  deadline : Option Nat
deriving DecidableEq, Repr

/-- The Redis store state. -/
def Redis : Type := RKey → Option RVal

/-- The empty Redis store. -/
def Redis.empty : Redis := fun _ => none

/-- View of a stored value at time `now`: an entry whose deadline has passed
is treated as absent (Redis key expiry). -/
def rlive (now : Nat) : Option RVal → Option RVal
  | none => none
  | some v =>
    match v.deadline with
    | none => some v
    | some t => if now < t then some v else none

/-- Redis `INCR`: increment the integer at `k`, creating it (with no expiry)
at value 1 when absent or expired.  Returns the new value. -/
def rincr (st : Redis) (k : RKey) (now : Nat) : Nat × Redis :=
  match rlive now (st k) with
  | some v => (v.value + 1, fun j => if j = k then some ⟨v.value + 1, v.deadline⟩ else st j)
  | none => (1, fun j => if j = k then some ⟨1, none⟩ else st j)

/-- Redis `EXPIRE k secs`: set an absolute deadline `now + secs` on a live key;
a no-op when the key is absent or already expired. -/
def rexpire (st : Redis) (k : RKey) (secs now : Nat) : Redis :=
  match rlive now (st k) with
  | some v => fun j => if j = k then some ⟨v.value, some (now + secs)⟩ else st j
  | none => st

/-- Redis `SET k v EX secs NX`: set-if-absent with expiry.  Returns whether the
set happened. -/
def rsetnx (st : Redis) (k : RKey) (secs now : Nat) : Bool × Redis :=
  match rlive now (st k) with
  | some _ => (false, st)
  | none => (true, fun j => if j = k then some ⟨1, some (now + secs)⟩ else st j)

/-- `check_rate_limit` from `src/services/limits.py`: fixed-window counter
keyed by `(tenant, now / 60)`; the first increment in a window sets a
60-second expiry; the call is denied when the incremented counter exceeds
`rpm` (`settings.RATE_LIMIT_RPM`).  Returns `(allowed, store)`. -/
def check_rate_limit (st : Redis) (tenant : String) (now rpm : Nat) : Bool × Redis :=
  let key := RKey.rl tenant (now / 60)
  let r := rincr st key now
  let st2 := if r.1 = 1 then rexpire r.2 key 60 now else r.2
  (decide (r.1 ≤ rpm), st2)

/-- `ensure_idempotent` from `src/services/limits.py`: requests with no key
(or an empty one — Python `if not key`) bypass the guard; otherwise the
`(tenant, key)` claim is taken via `SET ... EX 1800 NX` and the request is
rejected as a duplicate when the claim fails.  Returns `(allowed, store)`. -/
def ensure_idempotent (st : Redis) (tenant : String) (key : Option String) (now : Nat) :
    Bool × Redis :=
  match key with
  | none => (true, st)
  | some k =>
    if k = "" then (true, st)
    else rsetnx st (RKey.idemp tenant k) (60 * 30) now

/-- One row of the `usage_daily` table, keyed by `(date, tenant_id, project_id)`
(the composite primary key). -/
structure UsageRow where
  date : Nat
  tenant_id : String
  project_id : String
  messages_count : Nat
  tokens_in : Nat
  tokens_out : Nat
  chars_uploaded : Nat
deriving DecidableEq, Repr

/-- The `usage_daily` table.  The database enforces at most one row per
`(date, tenant_id, project_id)`; the upserts below update the first match. -/
abbrev Ledger : Type := List UsageRow

/-- Does `r` carry the composite key `(d, t, p)`? -/
def sameKey (d : Nat) (t p : String) (r : UsageRow) : Bool :=
  r.date = d ∧ r.tenant_id = t ∧ r.project_id = p

/-- `UsageRepo.increment_message`: `INSERT .. ON CONFLICT (date,tenant,project)
DO UPDATE` adding 1 to `messages_count` and the token deltas; inserts a fresh
row `(today, t, p, 1, ti, to, 0)` when no row with the key exists. -/
def increment_message (rows : Ledger) (today : Nat) (t p : String) (ti tokOut : Nat) : Ledger :=
  match rows with
  | [] => [⟨today, t, p, 1, ti, tokOut, 0⟩]
  | r :: rest =>
    if sameKey today t p r then
      { r with
        messages_count := r.messages_count + 1
        tokens_in := r.tokens_in + ti
        tokens_out := r.tokens_out + tokOut } :: rest
    else r :: increment_message rest today t p ti tokOut

/-- `UsageRepo.record_upload_chars`: the same atomic upsert-with-addition for
`chars_uploaded`, inserting `(today, t, p, 0, 0, 0, chars)` when absent. -/
def record_upload_chars (rows : Ledger) (today : Nat) (t p : String) (chars : Nat) : Ledger :=
  match rows with
  | [] => [⟨today, t, p, 0, 0, 0, chars⟩]
  | r :: rest =>
    if sameKey today t p r then
      { r with chars_uploaded := r.chars_uploaded + chars } :: rest
    else r :: record_upload_chars rest today t p chars

/-- Row filter of `messages_in_period`:
`tenant_id = :t AND date >= :start AND date < :end`. -/
def inPeriod (t : String) (s e : Nat) (r : UsageRow) : Bool :=
  r.tenant_id = t ∧ s ≤ r.date ∧ r.date < e

/-- `UsageRepo.messages_in_period`: `COALESCE(SUM(messages_count), 0)` over
the tenant's rows with `date ∈ [start, end)`. -/
def messages_in_period (rows : Ledger) (t : String) (s e : Nat) : Nat :=
  ((rows.filter (inPeriod t s e)).map UsageRow.messages_count).sum

/-- Row filter of `chars_uploaded_for_project_in_period`. -/
def inPeriodProj (t p : String) (s e : Nat) (r : UsageRow) : Bool :=
  r.tenant_id = t ∧ r.project_id = p ∧ s ≤ r.date ∧ r.date < e

/-- `UsageRepo.chars_uploaded_for_project_in_period`:
`COALESCE(SUM(chars_uploaded), 0)` over the project's rows in `[start, end)`. -/
def chars_uploaded_for_project_in_period (rows : Ledger) (t p : String) (s e : Nat) : Nat :=
  ((rows.filter (inPeriodProj t p s e)).map UsageRow.chars_uploaded).sum

/-- `UsageRepo.chars_uploaded_in_period`: tenant-wide variant. -/
def chars_uploaded_in_period (rows : Ledger) (t : String) (s e : Nat) : Nat :=
  ((rows.filter (inPeriod t s e)).map UsageRow.chars_uploaded).sum

/-- A `plans` catalog row (`src/db/models/plan.py`); only the fields the core
reads. -/
structure Plan where
  id : String
  max_projects : Nat
  monthly_message_cap : Nat
  monthly_upload_char_cap : Nat
deriving DecidableEq, Repr

/-- A `subscriptions` row (`src/db/models/subscription.py`): `tenant_id` is
the primary key, so at most one row per tenant. -/
structure Subscription where
  tenant_id : String
  plan_id : String
  billing_cycle : String
  current_period_start : Nat
  current_period_end : Nat
deriving DecidableEq, Repr

/-- A `projects` row (`src/db/models/project.py`); `vector_store_id` is null
until ensured. -/
structure Project where
  id : String
  tenant_id : String
  name : String
  vector_store_id : Option String
deriving DecidableEq, Repr

/-- `SubscriptionRepo.get_with_plan`, subscription part: `SELECT .. WHERE
tenant_id = :t`, `.first()`. -/
def get_sub (subs : List Subscription) (tenant : String) : Option Subscription :=
  subs.find? (fun s => s.tenant_id = tenant)

/-- The `selectinload(Subscription.plan)` relationship lookup: resolves the
subscription's `plan_id` in the plan catalog; `none` models a dangling
foreign key (`subscription.plan is None`). -/
def findPlan (plans : List Plan) (plan_id : String) : Option Plan :=
  plans.find? (fun p => p.id = plan_id)

/-- `ProjectRepo.get_by_id`. -/
def get_by_id (projects : List Project) (pid : String) : Option Project :=
  projects.find? (fun p => p.id = pid)

/-- `ProjectRepo.get_by_tenant_and_name`. -/
def get_by_tenant_and_name (projects : List Project) (tenant name : String) : Option Project :=
  projects.find? (fun p => p.tenant_id = tenant ∧ p.name = name)

/-- `ProjectRepo.count_for_tenant`: `SELECT count(*) WHERE tenant_id = :t`. -/
def count_for_tenant (projects : List Project) (tenant : String) : Nat :=
  (projects.filter (fun p => p.tenant_id = tenant)).length

/-- Python truthiness of an optional string: `not x` holds for `None` and
for the empty string (used by `if not project.vector_store_id`). -/
def optStrFalsy : Option String → Bool
  | none => true
  | some s => s = ""

/-- The mutable state every handler threads: the Redis store plus the
relational tables the core touches. -/
structure World where
  redis : Redis
  usage : Ledger
  projects : List Project
  subs : List Subscription
  plans : List Plan

/-- The user-facing decision outcomes of the handlers (each a distinct
`HTTPException` in the source) plus the propagated upstream failure. -/
inductive Outcome where
  | rateLimited
  | duplicateRequest
  | tenantMismatch
  | invalidCycle
  | planNotFound
  | projectNotFound
  | vectorStoreMissing
  | noActiveSubscription
  | planDataMissing
  | messageCapReached
  | projectLimitReached
  | uploadCapExceeded
  | noFiles
  | upstreamError (e : String)
deriving DecidableEq, Repr

/-- The successful payload of `POST /query/ask`. -/
structure AskResp where
  answer : String
  tokens_in : Nat
  tokens_out : Nat
deriving DecidableEq, Repr

/-- Result of running a handler: the response or error, the final state, and
whether the metered upstream provider call was performed. -/
structure HandlerOut (α : Type) where
  result : Except Outcome α
  world : World
  upstreamCalled : Bool

/-- The `ask` handler (`src/api/v1/endpoints/query.py`).  `upstream` is the
oracle for `responses_file_search` (already normalised to
`(answer, tokens_in, tokens_out)` — the token extraction is duck-typed glue);
`now` is the wall-clock second, `today` the current date, `rpm` the
configured `RATE_LIMIT_RPM`. -/
def ask (w : World) (tenant : String) (idem : Option String) (project_id : String)
    (now today rpm : Nat) (upstream : Except String (String × Nat × Nat)) :
    HandlerOut AskResp :=
  let rl := check_rate_limit w.redis tenant now rpm
  if !rl.1 then ⟨.error .rateLimited, { w with redis := rl.2 }, false⟩ else
  let idp := ensure_idempotent rl.2 tenant idem now
  let w2 : World := { w with redis := idp.2 }
  if !idp.1 then ⟨.error .duplicateRequest, w2, false⟩ else
  match get_by_id w.projects project_id with
  | none => ⟨.error .projectNotFound, w2, false⟩
  | some project =>
    if project.tenant_id ≠ tenant then ⟨.error .projectNotFound, w2, false⟩ else
    if optStrFalsy project.vector_store_id then ⟨.error .vectorStoreMissing, w2, false⟩ else
    match get_sub w.subs tenant with
    | none => ⟨.error .noActiveSubscription, w2, false⟩
    | some subscription =>
      match findPlan w.plans subscription.plan_id with
      | none => ⟨.error .planDataMissing, w2, false⟩
      | some plan =>
        let messages_used := messages_in_period w.usage tenant
          subscription.current_period_start subscription.current_period_end
        if messages_used ≥ plan.monthly_message_cap then
          ⟨.error .messageCapReached, w2, false⟩
        else
          match upstream with
          | .error e => ⟨.error (.upstreamError e), w2, true⟩
          | .ok (answer, tokens_in, tokens_out) =>
            let usage' := increment_message w.usage today tenant project_id
              tokens_in tokens_out
            ⟨.ok ⟨answer, tokens_in, tokens_out⟩, { w2 with usage := usage' }, true⟩

/-- Is `b` a UTF-8 continuation byte (`0x80–0xBF`)? -/
def isCont (b : Nat) : Bool := 0x80 ≤ b ∧ b ≤ 0xBF

/-- Lower bound of the first continuation byte after lead `b` (UTF-8 rejects
overlong encodings: `E0` needs `A0–BF`, `F0` needs `90–BF`). -/
def cont1Lo (b : Nat) : Nat := if b = 0xE0 then 0xA0 else if b = 0xF0 then 0x90 else 0x80

/-- Upper bound of the first continuation byte after lead `b` (UTF-8 rejects
surrogates after `ED` and code points above `U+10FFFF` after `F4`). -/
def cont1Hi (b : Nat) : Nat := if b = 0xED then 0x9F else if b = 0xF4 then 0x8F else 0xBF

/-- Is `c` valid as the first continuation byte after lead `b`? -/
def cont1ok (b c : Nat) : Bool := cont1Lo b ≤ c ∧ c ≤ cont1Hi b

/-- Decoding worker: structural recursion on a fuel argument that starts at
the list length; every step consumes at least one byte, so the fuel never
runs out before the bytes do and the `0` case is unreachable. -/
def utf8DecodeIgnoreAux : Nat → List Nat → List Nat
  | 0, _ => []
  | _ + 1, [] => []
  | fuel + 1, b :: rest =>
    if b < 0x80 then b :: utf8DecodeIgnoreAux fuel rest
    else if 0xC2 ≤ b ∧ b ≤ 0xDF then
      match rest with
      | c :: rest2 =>
        if isCont c then ((b - 0xC0) * 64 + (c - 0x80)) :: utf8DecodeIgnoreAux fuel rest2
        else utf8DecodeIgnoreAux fuel (c :: rest2)
      | [] => []
    else if 0xE0 ≤ b ∧ b ≤ 0xEF then
      match rest with
      | c1 :: c2 :: rest2 =>
        if cont1ok b c1 && isCont c2 then
          ((b - 0xE0) * 4096 + (c1 - 0x80) * 64 + (c2 - 0x80)) ::
            utf8DecodeIgnoreAux fuel rest2
        else utf8DecodeIgnoreAux fuel (c1 :: c2 :: rest2)
      | other => utf8DecodeIgnoreAux fuel other
    else if 0xF0 ≤ b ∧ b ≤ 0xF4 then
      match rest with
      | c1 :: c2 :: c3 :: rest2 =>
        if cont1ok b c1 && isCont c2 && isCont c3 then
          ((b - 0xF0) * 262144 + (c1 - 0x80) * 4096 + (c2 - 0x80) * 64 + (c3 - 0x80)) ::
            utf8DecodeIgnoreAux fuel rest2
        else utf8DecodeIgnoreAux fuel (c1 :: c2 :: c3 :: rest2)
      | other => utf8DecodeIgnoreAux fuel other
    else utf8DecodeIgnoreAux fuel rest

/-- Python `bytes.decode("utf-8", "ignore")`: decode UTF-8, dropping bytes
that are part of no valid sequence.  Skipping one byte at an invalid position
yields the same decoded characters as CPython's maximal-subpart error ranges,
because a continuation byte never starts a valid sequence. -/
def utf8DecodeIgnore (l : List Nat) : List Nat :=
  utf8DecodeIgnoreAux l.length l

/-- Is `bytes` well-formed UTF-8 (no invalid, truncated, overlong or
surrogate/out-of-range sequences)? -/
def validUTF8 : List Nat → Bool
  | [] => true
  | b :: rest =>
    if b < 0x80 then validUTF8 rest
    else if 0xC2 ≤ b ∧ b ≤ 0xDF then
      match rest with
      | c :: rest2 => isCont c && validUTF8 rest2
      | [] => false
    else if 0xE0 ≤ b ∧ b ≤ 0xEF then
      match rest with
      | c1 :: c2 :: rest2 => cont1ok b c1 && isCont c2 && validUTF8 rest2
      | _ => false
    else if 0xF0 ≤ b ∧ b ≤ 0xF4 then
      match rest with
      | c1 :: c2 :: c3 :: rest2 =>
        cont1ok b c1 && isCont c2 && isCont c3 && validUTF8 rest2
      | _ => false
    else false

/-- Per-file character count of `upload_and_attach`:
`len(file_bytes.decode("utf-8", "ignore"))`.  The source wraps this in
`try/except` with `len(file_bytes)` as fallback, but decoding with the
`ignore` error handler never raises, so the fallback branch is unreachable
and the count is always the decoded length. -/
def fileCharCount (bytes : List Nat) : Nat :=
  (utf8DecodeIgnore bytes).length

/-- The `total_chars` accumulation loop of `upload_and_attach`. -/
def batchTotalChars (files : List (List Nat)) : Nat :=
  files.foldl (fun acc f => acc + fileCharCount f) 0

/-- From the spec's words (for claim comparison only): the length of the file
decoded as UTF-8 text, "falling back to the raw byte length of the file when
UTF-8 decoding is not meaningful". -/
def specFileCharCount (bytes : List Nat) : Nat :=
  if validUTF8 bytes then (utf8DecodeIgnore bytes).length else bytes.length

/-- From the spec's words: batch character count as the sum of
`specFileCharCount` over the files. -/
def specBatchTotalChars (files : List (List Nat)) : Nat :=
  (files.map specFileCharCount).sum

/-- The `upload_and_attach` handler (`src/api/v1/endpoints/ingestion.py`).
Files are byte lists; `attach` is the oracle for the
`upload_files_to_openai` / `attach_files_batch` provider calls. -/
def upload_and_attach (w : World) (authTenant tenant_id project_id : String)
    (files : List (List Nat)) (now today rpm : Nat) (attach : Except String Unit) :
    HandlerOut Unit :=
  if files = [] then ⟨.error .noFiles, w, false⟩ else
  if authTenant ≠ tenant_id then ⟨.error .tenantMismatch, w, false⟩ else
  let rl := check_rate_limit w.redis tenant_id now rpm
  let w1 : World := { w with redis := rl.2 }
  if !rl.1 then ⟨.error .rateLimited, w1, false⟩ else
  match get_by_id w.projects project_id with
  | none => ⟨.error .projectNotFound, w1, false⟩
  | some project =>
    if project.tenant_id ≠ tenant_id then ⟨.error .projectNotFound, w1, false⟩ else
    if optStrFalsy project.vector_store_id then ⟨.error .vectorStoreMissing, w1, false⟩ else
    let total_chars := batchTotalChars files
    match get_sub w.subs tenant_id with
    | none => ⟨.error .noActiveSubscription, w1, false⟩
    | some subscription =>
      match findPlan w.plans subscription.plan_id with
      | none => ⟨.error .planDataMissing, w1, false⟩
      | some plan =>
        let already := chars_uploaded_for_project_in_period w.usage tenant_id project_id
          subscription.current_period_start subscription.current_period_end
        if already + total_chars > plan.monthly_upload_char_cap then
          ⟨.error .uploadCapExceeded, w1, false⟩
        else
          match attach with
          | .error e => ⟨.error (.upstreamError e), w1, true⟩
          | .ok _ =>
            let usage' := if total_chars ≠ 0 then
                record_upload_chars w.usage today tenant_id project_id total_chars
              else w.usage
            ⟨.ok (), { w1 with usage := usage' }, true⟩

/-- The `create_project` handler (`src/api/v1/endpoints/ingestion.py`).
`newId` models the database-generated id of a freshly inserted project; the
string in the response is the `status` flag (`"exists"` / `"created"`). -/
def create_project (w : World) (authTenant tenant_id name newId : String) (now rpm : Nat) :
    HandlerOut (Project × String) :=
  if authTenant ≠ tenant_id then ⟨.error .tenantMismatch, w, false⟩ else
  let rl := check_rate_limit w.redis tenant_id now rpm
  let w1 : World := { w with redis := rl.2 }
  if !rl.1 then ⟨.error .rateLimited, w1, false⟩ else
  match get_sub w.subs tenant_id with
  | none => ⟨.error .noActiveSubscription, w1, false⟩
  | some subscription =>
    match get_by_tenant_and_name w.projects tenant_id name with
    | some existing => ⟨.ok (existing, "exists"), w1, false⟩
    | none =>
      match findPlan w.plans subscription.plan_id with
      | none => ⟨.error .planDataMissing, w1, false⟩
      | some plan =>
        if count_for_tenant w.projects tenant_id ≥ plan.max_projects then
          ⟨.error .projectLimitReached, w1, false⟩
        else
          let project : Project := ⟨newId, tenant_id, name, none⟩
          ⟨.ok (project, "created"), { w1 with projects := w.projects ++ [project] }, false⟩

/-- `SubscriptionRepo.upsert`: replace the tenant's subscription row wholesale
(tenant_id is the primary key), inserting when absent. -/
def upsertSub (subs : List Subscription) (tenant plan_id cycle : String) (s e : Nat) :
    List Subscription :=
  match subs with
  | [] => [⟨tenant, plan_id, cycle, s, e⟩]
  | sub :: rest =>
    if sub.tenant_id = tenant then ⟨tenant, plan_id, cycle, s, e⟩ :: rest
    else sub :: upsertSub rest tenant plan_id cycle s e

/-- The `subscribe` handler (`src/api/v1/endpoints/billing.py`).  The period
end is `today + 1 month` (monthly) or `today + 1 year` (annual), computed by
the external `dateutil.relativedelta` library and therefore passed in as
`monthEnd` / `yearEnd`.  The denormalised tenant-cache update (`tenant.plan`,
`tenant.plan_messages`) touches a table no claim reads and is omitted. -/
def subscribe (w : World) (tenant plan_id cycle : String) (now today rpm : Nat)
    (monthEnd yearEnd : Nat) : HandlerOut (String × Nat × Nat) :=
  if cycle ≠ "monthly" ∧ cycle ≠ "annual" then ⟨.error .invalidCycle, w, false⟩ else
  let rl := check_rate_limit w.redis tenant now rpm
  let w1 : World := { w with redis := rl.2 }
  if !rl.1 then ⟨.error .rateLimited, w1, false⟩ else
  match findPlan w.plans plan_id with
  | none => ⟨.error .planNotFound, w1, false⟩
  | some plan =>
    let start := today
    let periodEnd := if cycle = "monthly" then monthEnd else yearEnd
    let subs' := upsertSub w.subs tenant plan.id cycle start periodEnd
    ⟨.ok (plan.id, start, periodEnd), { w1 with subs := subs' }, false⟩

/-- Equality of handler results is decidable (needed to evaluate outcomes on
concrete worlds). -/
instance exceptDecEq {ε α : Type} [DecidableEq ε] [DecidableEq α] :
    DecidableEq (Except ε α) := fun x y =>
  match x, y with
  | .error a, .error b =>
    if h : a = b then isTrue (by rw [h]) else isFalse (fun hc => h (by injection hc))
  | .error _, .ok _ => isFalse (fun hc => by injection hc)
  | .ok _, .error _ => isFalse (fun hc => by injection hc)
  | .ok a, .ok b =>
    if h : a = b then isTrue (by rw [h]) else isFalse (fun hc => h (by injection hc))

/-! ## Helper lemmas -/

theorem foldl_add_init {α : Type} (f : α → Nat) :
    ∀ (l : List α) (acc : Nat), l.foldl (fun a x => a + f x) acc = acc + (l.map f).sum := by
  intro l
  induction l with
  | nil => intro acc; simp
  | cons x xs ih =>
    intro acc
    simp only [List.foldl_cons, List.map_cons, List.sum_cons, ih]
    omega

/-- `INCR` leaves every other key unchanged. -/
theorem rincr_other (st : Redis) (k : RKey) (now : Nat) (j : RKey) (hj : j ≠ k) :
    (rincr st k now).2 j = st j := by
  unfold rincr
  cases h : rlive now (st k) <;> simp [hj]

/-- `EXPIRE` leaves every other key unchanged. -/
theorem rexpire_other (st : Redis) (k : RKey) (secs now : Nat) (j : RKey) (hj : j ≠ k) :
    rexpire st k secs now j = st j := by
  unfold rexpire
  cases h : rlive now (st k) <;> simp [hj]

/-- `SET .. NX` leaves every other key unchanged. -/
theorem rsetnx_other (st : Redis) (k : RKey) (secs now : Nat) (j : RKey) (hj : j ≠ k) :
    (rsetnx st k secs now).2 j = st j := by
  unfold rsetnx
  cases h : rlive now (st k) <;> simp [hj]

/-- `check_rate_limit` writes only the `rl` key of its own window. -/
theorem check_rate_limit_other_keys (st : Redis) (tenant : String) (now rpm : Nat)
    (j : RKey) (hj : j ≠ RKey.rl tenant (now / 60)) :
    (check_rate_limit st tenant now rpm).2 j = st j := by
  unfold check_rate_limit
  dsimp only
  split
  · rw [rexpire_other _ _ _ _ _ hj, rincr_other _ _ _ _ hj]
  · rw [rincr_other _ _ _ _ hj]

/-! ## C6 — half-open period sums -/

/-- C6: all period-scoped usage sums use a half-open date interval — a row
dated exactly `current_period_end` is excluded, a row dated exactly
`current_period_start` is included (when tenant/project match), and every
sum over absent data is `0`. -/
theorem period_sums_half_open (rows : Ledger) (r : UsageRow) (t p : String) (s e : Nat) :
    (r.date = e →
      messages_in_period (rows ++ [r]) t s e = messages_in_period rows t s e
      ∧ chars_uploaded_for_project_in_period (rows ++ [r]) t p s e
          = chars_uploaded_for_project_in_period rows t p s e
      ∧ chars_uploaded_in_period (rows ++ [r]) t s e = chars_uploaded_in_period rows t s e)
    ∧ (r.date = s → r.tenant_id = t → s < e →
        messages_in_period (rows ++ [r]) t s e
          = messages_in_period rows t s e + r.messages_count)
    ∧ (r.date = s → r.tenant_id = t → r.project_id = p → s < e →
        chars_uploaded_for_project_in_period (rows ++ [r]) t p s e
          = chars_uploaded_for_project_in_period rows t p s e + r.chars_uploaded)
    ∧ messages_in_period [] t s e = 0
    ∧ chars_uploaded_for_project_in_period [] t p s e = 0
    ∧ chars_uploaded_in_period [] t s e = 0 := by
  refine ⟨?_, ?_, ?_, rfl, rfl, rfl⟩
  · intro hend
    have hnot : inPeriod t s e r = false := by
      simp [inPeriod, hend]
    have hnot2 : inPeriodProj t p s e r = false := by
      simp [inPeriodProj, hend]
    constructor
    · simp [messages_in_period, List.filter_append, hnot]
    constructor
    · simp [chars_uploaded_for_project_in_period, List.filter_append, hnot2]
    · simp [chars_uploaded_in_period, List.filter_append, hnot]
  · intro hdate hten hlt
    have hin : inPeriod t s e r = true := by
      simp [inPeriod, hdate, hten, hlt]
    simp [messages_in_period, List.filter_append, hin]
  · intro hdate hten hproj hlt
    have hin : inPeriodProj t p s e r = true := by
      simp [inPeriodProj, hdate, hten, hproj, hlt]
    simp [chars_uploaded_for_project_in_period, List.filter_append, hin]

/-- Witness for C6 at concrete rows: a row dated on the period end is not
counted, one dated on the period start is, and empty sums are 0. -/
theorem period_sums_half_open_witness :
    messages_in_period ([] ++ [⟨5, "t", "p", 3, 0, 0, 7⟩]) "t" 2 5 = messages_in_period [] "t" 2 5
    ∧ messages_in_period ([] ++ [⟨2, "t", "p", 3, 0, 0, 7⟩]) "t" 2 5
        = messages_in_period [] "t" 2 5 + 3
    ∧ chars_uploaded_for_project_in_period ([] ++ [⟨2, "t", "p", 3, 0, 0, 7⟩]) "t" "p" 2 5
        = chars_uploaded_for_project_in_period [] "t" "p" 2 5 + 7
    ∧ messages_in_period [] "t" 2 5 = 0 := by
  refine ⟨?_, ?_, ?_, ?_⟩
  · exact ((period_sums_half_open [] ⟨5, "t", "p", 3, 0, 0, 7⟩ "t" "p" 2 5).1 rfl).1
  · exact (period_sums_half_open [] ⟨2, "t", "p", 3, 0, 0, 7⟩ "t" "p" 2 5).2.1 rfl rfl
      (by decide)
  · exact (period_sums_half_open [] ⟨2, "t", "p", 3, 0, 0, 7⟩ "t" "p" 2 5).2.2.1 rfl rfl rfl
      (by decide)
  · exact (period_sums_half_open [] ⟨2, "t", "p", 3, 0, 0, 7⟩ "t" "p" 2 5).2.2.2.1

/-! ## Helper lemmas about the `ask` handler -/

/-- When the rate limiter denies, `ask` stops with `rateLimited`. -/
theorem ask_rl_denied (w : World) (tenant : String) (idem : Option String)
    (pid : String) (now today rpm : Nat) (upstream : Except String (String × Nat × Nat))
    (h : (check_rate_limit w.redis tenant now rpm).1 = false) :
    ask w tenant idem pid now today rpm upstream
      = ⟨.error .rateLimited, { w with redis := (check_rate_limit w.redis tenant now rpm).2 },
         false⟩ := by
  unfold ask
  simp [h]

/-- When the rate limiter passes and the idempotency guard denies, `ask`
stops with `duplicateRequest`. -/
theorem ask_dup_denied (w : World) (tenant : String) (idem : Option String)
    (pid : String) (now today rpm : Nat) (upstream : Except String (String × Nat × Nat))
    (hrl : (check_rate_limit w.redis tenant now rpm).1 = true)
    (hid : (ensure_idempotent (check_rate_limit w.redis tenant now rpm).2 tenant idem now).1
      = false) :
    ask w tenant idem pid now today rpm upstream
      = ⟨.error .duplicateRequest,
         { w with redis :=
            (ensure_idempotent (check_rate_limit w.redis tenant now rpm).2 tenant idem now).2 },
         false⟩ := by
  unfold ask
  simp [hrl, hid]

/-- Once the rate limiter passes, the final Redis state of `ask` is the one
left by the idempotency guard (no later step touches Redis). -/
theorem ask_redis_after_guards (w : World) (tenant : String) (idem : Option String)
    (pid : String) (now today rpm : Nat) (upstream : Except String (String × Nat × Nat))
    (hrl : (check_rate_limit w.redis tenant now rpm).1 = true) :
    (ask w tenant idem pid now today rpm upstream).world.redis
      = (ensure_idempotent (check_rate_limit w.redis tenant now rpm).2 tenant idem now).2 := by
  unfold ask
  simp only [hrl, Bool.not_true, Bool.false_eq_true, if_false]
  split <;> try rfl
  split <;> try rfl
  · split <;> try rfl
    split <;> try rfl
    split <;> try rfl
    split <;> try rfl
    split <;> try rfl
    cases upstream <;> rfl

/-! ## C1 — the message gate -/

/-- C1: for an ask request by a tenant with an active subscription whose plan
caps monthly messages at `C`, the gate lets the metered action run iff the
period sum of `messages_count` is strictly below `C`; at or above `C` the
request is denied with `messageCapReached`, the upstream call is never made,
and the usage ledger is untouched. -/
theorem ask_message_gate (w : World) (tenant : String) (idem : Option String)
    (pid : String) (now today rpm : Nat) (upstream : Except String (String × Nat × Nat))
    (project : Project) (sub : Subscription) (plan : Plan)
    (hrl : (check_rate_limit w.redis tenant now rpm).1 = true)
    (hid : (ensure_idempotent (check_rate_limit w.redis tenant now rpm).2 tenant idem now).1
      = true)
    (hproj : get_by_id w.projects pid = some project)
    (hten : project.tenant_id = tenant)
    (hvs : optStrFalsy project.vector_store_id = false)
    (hsub : get_sub w.subs tenant = some sub)
    (hplan : findPlan w.plans sub.plan_id = some plan) :
    ((ask w tenant idem pid now today rpm upstream).upstreamCalled = true
      ↔ messages_in_period w.usage tenant sub.current_period_start sub.current_period_end
          < plan.monthly_message_cap)
    ∧ (plan.monthly_message_cap
        ≤ messages_in_period w.usage tenant sub.current_period_start sub.current_period_end →
        (ask w tenant idem pid now today rpm upstream).result
            = Except.error .messageCapReached
        ∧ (ask w tenant idem pid now today rpm upstream).upstreamCalled = false
        ∧ (ask w tenant idem pid now today rpm upstream).world.usage = w.usage) := by
  by_cases hc : plan.monthly_message_cap
      ≤ messages_in_period w.usage tenant sub.current_period_start sub.current_period_end
  · unfold ask
    simp only [hrl, hid, hproj, hsub, hplan, hten, hvs, Bool.not_true, Bool.false_eq_true,
      if_false, ne_eq, not_true_eq_false, ge_iff_le, hc, if_true, ite_true, ite_false]
    simp [hc]
  · unfold ask
    simp only [hrl, hid, hproj, hsub, hplan, hten, hvs, Bool.not_true, Bool.false_eq_true,
      if_false, ne_eq, not_true_eq_false, ge_iff_le, hc, ite_false]
    cases upstream <;> simp [hc] <;> omega

/-- Concrete world for the C1 witness: plan cap 5, five messages already
recorded inside the period `[1, 31)`. -/
def wC1 : World :=
  { redis := Redis.empty
    usage := [⟨10, "t1", "p1", 5, 0, 0, 0⟩]
    projects := [⟨"p1", "t1", "chat", some "vs1"⟩]
    subs := [⟨"t1", "basic", "monthly", 1, 31⟩]
    plans := [⟨"basic", 3, 5, 1000⟩] }

/-- Witness for C1: at the cap, the ask is denied with `messageCapReached`
and the provider is not called. -/
theorem ask_message_gate_witness :
    (ask wC1 "t1" none "p1" 30 10 10 (Except.ok ("a", 1, 1))).result
        = Except.error .messageCapReached
    ∧ (ask wC1 "t1" none "p1" 30 10 10 (Except.ok ("a", 1, 1))).upstreamCalled = false
    ∧ (ask wC1 "t1" none "p1" 30 10 10 (Except.ok ("a", 1, 1))).world.usage = wC1.usage := by
  have h := ask_message_gate wC1 "t1" none "p1" 30 10 10 (Except.ok ("a", 1, 1))
      ⟨"p1", "t1", "chat", some "vs1"⟩ ⟨"t1", "basic", "monthly", 1, 31⟩ ⟨"basic", 3, 5, 1000⟩
      (by decide) (by decide) (by decide) (by decide) (by decide) (by decide) (by decide)
  exact h.2 (by decide)

/-! ## C5 — upstream failure leaves the ledger untouched -/

/-- C5: a failed retrieval/LLM call is propagated as-is and never increments
usage — for every world the ledger after an `ask` whose upstream call fails
equals the ledger before, and when all pre-checks pass the handler's result
is exactly the propagated upstream error. -/
theorem ask_upstream_failure (w : World) (tenant : String) (idem : Option String)
    (pid : String) (now today rpm : Nat) (e : String) :
    (ask w tenant idem pid now today rpm (Except.error e)).world.usage = w.usage
    ∧ (∀ (project : Project) (sub : Subscription) (plan : Plan),
        (check_rate_limit w.redis tenant now rpm).1 = true →
        (ensure_idempotent (check_rate_limit w.redis tenant now rpm).2 tenant idem now).1
          = true →
        get_by_id w.projects pid = some project →
        project.tenant_id = tenant →
        optStrFalsy project.vector_store_id = false →
        get_sub w.subs tenant = some sub →
        findPlan w.plans sub.plan_id = some plan →
        messages_in_period w.usage tenant sub.current_period_start sub.current_period_end
          < plan.monthly_message_cap →
        (ask w tenant idem pid now today rpm (Except.error e)).result
          = Except.error (.upstreamError e)) := by
  constructor
  · unfold ask
    dsimp only
    split
    · rfl
    split
    · rfl
    split
    · rfl
    · split
      · rfl
      split
      · rfl
      split
      · rfl
      split
      · rfl
      split <;> rfl
  · intro project sub plan hrl hid hproj hten hvs hsub hplan hcap
    unfold ask
    simp only [hrl, hid, hproj, hsub, hplan, hten, hvs, Bool.not_true, Bool.false_eq_true,
      if_false, ne_eq, not_true_eq_false, ge_iff_le, ite_false]
    simp [Nat.not_le.mpr hcap]

/-- Concrete world for the C5 witness: two of five messages used, so the
gate passes and the upstream call is reached. -/
def wC5 : World :=
  { redis := Redis.empty
    usage := [⟨10, "t1", "p1", 2, 0, 0, 0⟩]
    projects := [⟨"p1", "t1", "chat", some "vs1"⟩]
    subs := [⟨"t1", "basic", "monthly", 1, 31⟩]
    plans := [⟨"basic", 3, 5, 1000⟩] }

/-- Witness for C5: with every check passing, a failing upstream call yields
the propagated error and an unchanged ledger. -/
theorem ask_upstream_failure_witness :
    (ask wC5 "t1" none "p1" 30 10 10 (Except.error "boom")).world.usage = wC5.usage
    ∧ (ask wC5 "t1" none "p1" 30 10 10 (Except.error "boom")).result
        = Except.error (.upstreamError "boom") := by
  have h := ask_upstream_failure wC5 "t1" none "p1" 30 10 10 "boom"
  exact ⟨h.1, h.2 ⟨"p1", "t1", "chat", some "vs1"⟩ ⟨"t1", "basic", "monthly", 1, 31⟩
    ⟨"basic", 3, 5, 1000⟩ (by decide) (by decide) (by decide) (by decide) (by decide)
    (by decide) (by decide) (by decide)⟩

/-! ## C4 — the idempotency guard -/

/-- C4: a supplied idempotency key is claimed atomically via set-if-absent
with a 30-minute (1800 s) expiry; an already-claimed key makes the request
fail as `duplicateRequest` with the store unchanged and — inside `ask` — no
metered action, no ledger change and no replayed response; a request without
a key bypasses the guard entirely. -/
theorem idempotency_guard (st : Redis) (tenant k : String) (now : Nat) :
    (ensure_idempotent st tenant none now = (true, st))
    ∧ (k ≠ "" → rlive now (st (RKey.idemp tenant k)) = none →
        (ensure_idempotent st tenant (some k) now).1 = true
        ∧ (ensure_idempotent st tenant (some k) now).2 (RKey.idemp tenant k)
            = some ⟨1, some (now + 60 * 30)⟩)
    ∧ (∀ v : RVal, k ≠ "" → rlive now (st (RKey.idemp tenant k)) = some v →
        ensure_idempotent st tenant (some k) now = (false, st))
    ∧ (∀ (w : World) (idem : Option String) (pid : String) (today rpm : Nat)
          (upstream : Except String (String × Nat × Nat)),
        (check_rate_limit w.redis tenant now rpm).1 = true →
        (ensure_idempotent (check_rate_limit w.redis tenant now rpm).2 tenant idem now).1
          = false →
        (ask w tenant idem pid now today rpm upstream).result
            = Except.error .duplicateRequest
        ∧ (ask w tenant idem pid now today rpm upstream).upstreamCalled = false
        ∧ (ask w tenant idem pid now today rpm upstream).world.usage = w.usage) := by
  refine ⟨rfl, ?_, ?_, ?_⟩
  · intro hk hfresh
    simp [ensure_idempotent, hk, rsetnx, hfresh]
  · intro v hk hlive
    simp [ensure_idempotent, hk, rsetnx, hlive]
  · intro w idem pid today rpm upstream hrl hid
    rw [ask_dup_denied w tenant idem pid now today rpm upstream hrl hid]
    exact ⟨rfl, rfl, rfl⟩

/-- Witness for C4 on the empty store: the first claim of `("t1", "key9")`
succeeds and records a deadline 1800 s out; replaying it against the claimed
store fails; a keyless call is a no-op; and a duplicate inside `ask` yields
the `duplicateRequest` error without touching the ledger. -/
theorem idempotency_guard_witness :
    (ensure_idempotent Redis.empty "t1" none 7 = (true, Redis.empty))
    ∧ (ensure_idempotent Redis.empty "t1" (some "key9") 7).1 = true
    ∧ (ensure_idempotent Redis.empty "t1" (some "key9") 7).2 (RKey.idemp "t1" "key9")
        = some ⟨1, some (7 + 60 * 30)⟩
    ∧ ensure_idempotent (ensure_idempotent Redis.empty "t1" (some "key9") 7).2
        "t1" (some "key9") 8
        = (false, (ensure_idempotent Redis.empty "t1" (some "key9") 7).2) := by
  have h1 := idempotency_guard Redis.empty "t1" "key9" 7
  have h2 := idempotency_guard ((ensure_idempotent Redis.empty "t1" (some "key9") 7).2)
      "t1" "key9" 8
  refine ⟨h1.1, (h1.2.1 (by decide) (by decide)).1, (h1.2.1 (by decide) (by decide)).2, ?_⟩
  exact h2.2.2.1 ⟨1, some 1807⟩ (by decide) (by decide)

/-! ## C3 — fixed-window rate limiting -/

/-- A sequence of `check_rate_limit` calls for one tenant at the given times,
threading the Redis store; returns the per-call allow/deny verdicts and the
final store. -/
def rlCalls (tenant : String) (rpm : Nat) : List Nat → Redis → List Bool × Redis
  | [], st => ([], st)
  | now :: rest, st =>
    let r := check_rate_limit st tenant now rpm
    let tail := rlCalls tenant rpm rest r.2
    (r.1 :: tail.1, tail.2)

/-- First increment in a window: counter becomes 1 and the key gets a
60-second expiry. -/
theorem check_rate_limit_fresh (st : Redis) (tenant : String) (now rpm : Nat)
    (h : rlive now (st (RKey.rl tenant (now / 60))) = none) :
    (check_rate_limit st tenant now rpm).1 = decide (1 ≤ rpm)
    ∧ (check_rate_limit st tenant now rpm).2 (RKey.rl tenant (now / 60))
        = some ⟨1, some (now + 60)⟩ := by
  have hr : rincr st (RKey.rl tenant (now / 60)) now
      = (1, fun j => if j = RKey.rl tenant (now / 60) then some ⟨1, none⟩ else st j) := by
    unfold rincr
    rw [h]
  simp only [check_rate_limit, hr]
  constructor
  · trivial
  · simp [rexpire, rlive]

/-- Subsequent increment on a live counter: value goes up by one, the expiry
deadline is untouched, and the verdict compares the new value to the cap. -/
theorem check_rate_limit_live (st : Redis) (tenant : String) (now rpm : Nat) (v : RVal)
    (h : rlive now (st (RKey.rl tenant (now / 60))) = some v) (hv : 1 ≤ v.value) :
    (check_rate_limit st tenant now rpm).1 = decide (v.value + 1 ≤ rpm)
    ∧ (check_rate_limit st tenant now rpm).2 (RKey.rl tenant (now / 60))
        = some ⟨v.value + 1, v.deadline⟩ := by
  have hr : rincr st (RKey.rl tenant (now / 60)) now
      = (v.value + 1, fun j => if j = RKey.rl tenant (now / 60) then
          some ⟨v.value + 1, v.deadline⟩ else st j) := by
    unfold rincr
    rw [h]
  have hne : ¬ (v.value + 1 = 1) := by omega
  simp only [check_rate_limit, hr]
  constructor
  · trivial
  · simp [hne]

/-- Requests in one window starting from a live counter at `k`: while the
counter is below the cap the calls pass, the `(rpm+1)`-th overall call is
denied, and only the window's own key is written. -/
theorem rlCalls_window (tenant : String) (rpm wdw d : Nat) :
    ∀ (times : List Nat) (st : Redis) (k : Nat),
      (∀ tm ∈ times, tm / 60 = wdw) →
      (∀ tm ∈ times, tm < d) →
      st (RKey.rl tenant wdw) = some ⟨k, some d⟩ →
      1 ≤ k → k ≤ rpm → k + times.length = rpm + 1 →
      (rlCalls tenant rpm times st).1 = List.replicate (rpm - k) true ++ [false]
      ∧ (∀ j, j ≠ RKey.rl tenant wdw → (rlCalls tenant rpm times st).2 j = st j) := by
  intro times
  induction times with
  | nil =>
    intro st k _ _ _ _ hkr hlen
    simp only [List.length_nil] at hlen
    omega
  | cons tm rest ih =>
    intro st k hw hd hst hk1 hkr hlen
    have htmw : tm / 60 = wdw := hw tm (List.mem_cons_self tm rest)
    have htmd : tm < d := hd tm (List.mem_cons_self tm rest)
    have hlive : rlive tm (st (RKey.rl tenant (tm / 60))) = some ⟨k, some d⟩ := by
      rw [htmw, hst]
      simp [rlive, htmd]
    have hstep := check_rate_limit_live st tenant tm rpm ⟨k, some d⟩ hlive hk1
    rw [htmw] at hstep
    have hother : ∀ j, j ≠ RKey.rl tenant wdw →
        (check_rate_limit st tenant tm rpm).2 j = st j := by
      intro j hj
      exact check_rate_limit_other_keys st tenant tm rpm j (htmw ▸ hj)
    by_cases hk : k = rpm
    · have hrest : rest = [] := by
        subst hk
        simp only [List.length_cons] at hlen
        exact List.eq_nil_of_length_eq_zero (by omega)
      subst hrest hk
      simp only [rlCalls, hstep.1]
      constructor
      · simp
      · intro j hj
        exact hother j hj
    · have hklt : k < rpm := lt_of_le_of_ne hkr hk
      have hrec := ih (check_rate_limit st tenant tm rpm).2 (k + 1)
        (fun x hx => hw x (List.mem_cons_of_mem tm hx))
        (fun x hx => hd x (List.mem_cons_of_mem tm hx))
        hstep.2 (by omega) (by omega)
        (by simp only [List.length_cons] at hlen; omega)
      constructor
      · have hk2 : k + 1 ≤ rpm := hklt
        simp only [rlCalls, hstep.1, hrec.1]
        have h4 : rpm - k = (rpm - (k + 1)) + 1 := by omega
        rw [h4, List.replicate_succ]
        simp [hk2]
      · intro j hj
        simp only [rlCalls]
        rw [hrec.2 j hj, hother j hj]

/-- C3: the rate limiter is a fixed-window counter on `(tenant, now / 60)` —
on a window with no prior state the first call installs a 60-second expiry,
the first `rpm` calls of the window pass and the `(rpm+1)`-th is denied, a
denied call surfaces as the `rateLimited` outcome of `ask`, and a call in a
fresh later window passes again. -/
theorem rate_limiter_fixed_window (st : Redis) (tenant : String) (rpm wdw : Nat)
    (t1 t2 : Nat) (rest : List Nat)
    (hfresh : st (RKey.rl tenant wdw) = none)
    (hrpm : 1 ≤ rpm)
    (h1 : t1 / 60 = wdw)
    (hrest : ∀ tm ∈ rest, tm / 60 = wdw)
    (hlen : rest.length = rpm)
    (h2 : t2 / 60 ≠ wdw)
    (hfresh2 : st (RKey.rl tenant (t2 / 60)) = none) :
    (check_rate_limit st tenant t1 rpm).2 (RKey.rl tenant wdw) = some ⟨1, some (t1 + 60)⟩
    ∧ (rlCalls tenant rpm (t1 :: rest) st).1 = List.replicate rpm true ++ [false]
    ∧ (check_rate_limit (rlCalls tenant rpm (t1 :: rest) st).2 tenant t2 rpm).1 = true
    ∧ (∀ (w : World) (idem : Option String) (pid : String) (now today : Nat)
          (upstream : Except String (String × Nat × Nat)),
        (check_rate_limit w.redis tenant now rpm).1 = false →
        (ask w tenant idem pid now today rpm upstream).result = Except.error .rateLimited) := by
  have hlive1 : rlive t1 (st (RKey.rl tenant (t1 / 60))) = none := by
    rw [h1, hfresh]
    rfl
  have hstep1 := check_rate_limit_fresh st tenant t1 rpm hlive1
  rw [h1] at hstep1
  have hd : ∀ tm ∈ rest, tm < t1 + 60 := by
    intro tm hm
    have h3 := hrest tm hm
    omega
  refine ⟨hstep1.2, ?_, ?_, ?_⟩
  · have hrec := rlCalls_window tenant rpm wdw (t1 + 60) rest
      (check_rate_limit st tenant t1 rpm).2 1 hrest hd hstep1.2 le_rfl hrpm (by omega)
    simp only [rlCalls, hstep1.1, hrec.1]
    have : rpm = (rpm - 1) + 1 := by omega
    rw [this, List.replicate_succ]
    simp [hrpm]
  · have hrec := rlCalls_window tenant rpm wdw (t1 + 60) rest
      (check_rate_limit st tenant t1 rpm).2 1 hrest hd hstep1.2 le_rfl hrpm (by omega)
    have hkey2 : (rlCalls tenant rpm (t1 :: rest) st).2 (RKey.rl tenant (t2 / 60))
        = st (RKey.rl tenant (t2 / 60)) := by
      have hne : RKey.rl tenant (t2 / 60) ≠ RKey.rl tenant wdw := by
        intro hcon
        apply h2
        cases hcon
        rfl
      simp only [rlCalls]
      rw [hrec.2 _ hne, check_rate_limit_other_keys st tenant t1 rpm _ (h1 ▸ hne)]
    have hlive2 : rlive t2 ((rlCalls tenant rpm (t1 :: rest) st).2
        (RKey.rl tenant (t2 / 60))) = none := by
      rw [hkey2, hfresh2]
      rfl
    have hstep2 := check_rate_limit_fresh ((rlCalls tenant rpm (t1 :: rest) st).2)
      tenant t2 rpm hlive2
    rw [hstep2.1]
    simpa using hrpm
  · intro w idem pid now today upstream hde
    rw [ask_rl_denied w tenant idem pid now today rpm upstream hde]

/-- Witness for C3 with `rpm = 2`: calls at seconds 60, 61 and 119 (window 1)
give allow, allow, deny; the first call set a deadline of second 120 on the
window key; and a call at second 125 (window 2) is allowed again. -/
theorem rate_limiter_fixed_window_witness :
    (rlCalls "t1" 2 [60, 61, 119] Redis.empty).1 = [true, true, false]
    ∧ (check_rate_limit (rlCalls "t1" 2 [60, 61, 119] Redis.empty).2 "t1" 125 2).1 = true
    ∧ (check_rate_limit Redis.empty "t1" 60 2).2 (RKey.rl "t1" 1)
        = some ⟨1, some 120⟩ := by
  have h := rate_limiter_fixed_window Redis.empty "t1" 2 1 60 125 [61, 119]
      rfl (by decide) rfl (by decide) rfl (by decide) rfl
  refine ⟨?_, h.2.2.1, ?_⟩
  · simpa using h.2.1
  · simpa using h.1

/-! ## C2 — the upload gate -/

/-- `record_upload_chars` raises the project's period sum by exactly the
recorded amount when `today` lies in the period, and leaves it unchanged
otherwise. -/
theorem chars_sum_after_record (today : Nat) (t p : String) (c s e : Nat) :
    ∀ rows : Ledger,
      chars_uploaded_for_project_in_period (record_upload_chars rows today t p c) t p s e
        = chars_uploaded_for_project_in_period rows t p s e
          + (if s ≤ today ∧ today < e then c else 0) := by
  intro rows
  induction rows with
  | nil =>
    by_cases h : s ≤ today ∧ today < e
    · simp [record_upload_chars, chars_uploaded_for_project_in_period, inPeriodProj, h]
    · simp only [record_upload_chars, chars_uploaded_for_project_in_period]
      rw [if_neg h]
      have hb : inPeriodProj t p s e ⟨today, t, p, 0, 0, 0, c⟩ = false := by
        simp only [inPeriodProj, decide_eq_false_iff_not]
        intro hcon
        exact h ⟨hcon.2.2.1, hcon.2.2.2⟩
      simp [hb]
  | cons r rest ih =>
    by_cases hk : sameKey today t p r
    · have hk' := hk
      simp only [sameKey, decide_eq_true_eq] at hk'
      obtain ⟨hd, ht, hp⟩ := hk'
      simp only [record_upload_chars, hk, if_true, chars_uploaded_for_project_in_period,
        List.filter]
      by_cases h : s ≤ today ∧ today < e
      · have hin : inPeriodProj t p s e { r with chars_uploaded := r.chars_uploaded + c }
            = true := by
          simp [inPeriodProj, hd, ht, hp, h.1, h.2]
        have hin2 : inPeriodProj t p s e r = true := by
          simp [inPeriodProj, hd, ht, hp, h.1, h.2]
        simp only [hin, hin2, List.map, List.sum_cons, if_pos h]
        omega
      · have hin : inPeriodProj t p s e { r with chars_uploaded := r.chars_uploaded + c }
            = false := by
          simp only [inPeriodProj, hd, ht, hp]
          simpa using fun h1 h2 => h ⟨h1, h2⟩
        have hin2 : inPeriodProj t p s e r = false := by
          simp only [inPeriodProj, hd, ht, hp]
          simpa using fun h1 h2 => h ⟨h1, h2⟩
        simp only [hin, hin2, if_neg h]
        omega
    · simp only [record_upload_chars, hk, if_false, chars_uploaded_for_project_in_period,
        List.filter, Bool.false_eq_true]
      cases hin : inPeriodProj t p s e r with
      | true =>
        simp only [List.map, List.sum_cons]
        have := ih
        simp only [chars_uploaded_for_project_in_period] at this
        rw [this]
        omega
      | false =>
        have := ih
        simp only [chars_uploaded_for_project_in_period] at this
        rw [this]

/-- C2: an upload batch whose character total plus the chars already recorded
for the `(tenant, project)` pair in the current period exceeds
`monthly_upload_char_cap` is denied whole with `uploadCapExceeded` — zero
additional chars recorded, provider never called; a batch within the cap is
allowed and the project's period sum grows by exactly the batch total. -/
theorem upload_gate (w : World) (tenant pid : String) (files : List (List Nat))
    (now today rpm : Nat) (project : Project) (sub : Subscription) (plan : Plan)
    (hfiles : files ≠ [])
    (hrl : (check_rate_limit w.redis tenant now rpm).1 = true)
    (hproj : get_by_id w.projects pid = some project)
    (hten : project.tenant_id = tenant)
    (hvs : optStrFalsy project.vector_store_id = false)
    (hsub : get_sub w.subs tenant = some sub)
    (hplan : findPlan w.plans sub.plan_id = some plan) :
    (plan.monthly_upload_char_cap
        < chars_uploaded_for_project_in_period w.usage tenant pid
            sub.current_period_start sub.current_period_end + batchTotalChars files →
      (upload_and_attach w tenant tenant pid files now today rpm (Except.ok ())).result
          = Except.error .uploadCapExceeded
      ∧ (upload_and_attach w tenant tenant pid files now today rpm
          (Except.ok ())).world.usage = w.usage
      ∧ (upload_and_attach w tenant tenant pid files now today rpm
          (Except.ok ())).upstreamCalled = false)
    ∧ (chars_uploaded_for_project_in_period w.usage tenant pid
          sub.current_period_start sub.current_period_end + batchTotalChars files
            ≤ plan.monthly_upload_char_cap →
      (upload_and_attach w tenant tenant pid files now today rpm (Except.ok ())).result
          = Except.ok ()
      ∧ (sub.current_period_start ≤ today → today < sub.current_period_end →
          chars_uploaded_for_project_in_period
            (upload_and_attach w tenant tenant pid files now today rpm
              (Except.ok ())).world.usage tenant pid
            sub.current_period_start sub.current_period_end
          = chars_uploaded_for_project_in_period w.usage tenant pid
              sub.current_period_start sub.current_period_end + batchTotalChars files)) := by
  constructor
  · intro hover
    unfold upload_and_attach
    simp only [hfiles, hrl, hproj, hsub, hplan, hten, hvs, Bool.not_true, Bool.false_eq_true,
      if_false, ne_eq, not_true_eq_false, ite_false, if_neg (lt_irrefl tenant)]
    simp [hover, Nat.not_le.mpr hover]
  · intro hunder
    have hnot : ¬ (plan.monthly_upload_char_cap
        < chars_uploaded_for_project_in_period w.usage tenant pid
            sub.current_period_start sub.current_period_end + batchTotalChars files) :=
      Nat.not_lt.mpr hunder
    unfold upload_and_attach
    simp only [hfiles, hrl, hproj, hsub, hplan, hten, hvs, Bool.not_true, Bool.false_eq_true,
      if_false, ne_eq, not_true_eq_false, ite_false]
    simp only [hnot, gt_iff_lt, ite_false, if_neg hnot]
    constructor
    · simp
    · intro hs he
      by_cases h0 : batchTotalChars files = 0
      · simp [h0]
      · simp only [h0, ne_eq, not_false_eq_true, if_true, ite_true]
        simp only [chars_sum_after_record today tenant pid (batchTotalChars files)
          sub.current_period_start sub.current_period_end w.usage]
        simp [hs, he]

/-- Concrete world for the C2 witness: upload cap 10, with 8 chars already
recorded for `("t1", "p1")` on day 10 of the period `[1, 31)`. -/
def wC2 : World :=
  { redis := Redis.empty
    usage := [⟨10, "t1", "p1", 0, 0, 0, 8⟩]
    projects := [⟨"p1", "t1", "chat", some "vs1"⟩]
    subs := [⟨"t1", "basic", "monthly", 1, 31⟩]
    plans := [⟨"basic", 3, 5, 10⟩] }

/-- Witness for C2: a 3-char batch on top of 8/10 used is denied whole with
no ledger change; a 2-char batch is accepted and the period sum becomes
exactly 10. -/
theorem upload_gate_witness :
    (upload_and_attach wC2 "t1" "t1" "p1" [[65, 66, 67]] 30 10 10 (Except.ok ())).result
        = Except.error .uploadCapExceeded
    ∧ (upload_and_attach wC2 "t1" "t1" "p1" [[65, 66, 67]] 30 10 10
        (Except.ok ())).world.usage = wC2.usage
    ∧ (upload_and_attach wC2 "t1" "t1" "p1" [[65, 66]] 30 10 10 (Except.ok ())).result
        = Except.ok ()
    ∧ chars_uploaded_for_project_in_period
        (upload_and_attach wC2 "t1" "t1" "p1" [[65, 66]] 30 10 10 (Except.ok ())).world.usage
        "t1" "p1" 1 31 = 10 := by
  have h1 := upload_gate wC2 "t1" "p1" [[65, 66, 67]] 30 10 10
      ⟨"p1", "t1", "chat", some "vs1"⟩ ⟨"t1", "basic", "monthly", 1, 31⟩ ⟨"basic", 3, 5, 10⟩
      (by decide) (by decide) (by decide) (by decide) (by decide) (by decide) (by decide)
  have h2 := upload_gate wC2 "t1" "p1" [[65, 66]] 30 10 10
      ⟨"p1", "t1", "chat", some "vs1"⟩ ⟨"t1", "basic", "monthly", 1, 31⟩ ⟨"basic", 3, 5, 10⟩
      (by decide) (by decide) (by decide) (by decide) (by decide) (by decide) (by decide)
  have ha := h1.1 (by decide)
  have hb := h2.2 (by decide)
  refine ⟨ha.1, ha.2.1, hb.1, ?_⟩
  have hc := hb.2 (by decide) (by decide)
  simpa using hc

/-! ## C8 — the project-creation gate -/

/-- C8: with an active subscription and the rate limit passed, creating a
project whose `(tenant, name)` already exists returns the existing project
unchanged regardless of plan or count (idempotent create, not subject to the
limit); for a fresh name the gate allows creation iff the tenant's project
count is strictly below `max_projects`, denying otherwise with
`projectLimitReached`. -/
theorem project_creation_gate (w : World) (tenant name newId : String) (now rpm : Nat)
    (sub : Subscription)
    (hrl : (check_rate_limit w.redis tenant now rpm).1 = true)
    (hsub : get_sub w.subs tenant = some sub) :
    (∀ existing : Project,
      get_by_tenant_and_name w.projects tenant name = some existing →
      (create_project w tenant tenant name newId now rpm).result
          = Except.ok (existing, "exists")
      ∧ (create_project w tenant tenant name newId now rpm).world.projects = w.projects)
    ∧ (∀ plan : Plan,
      get_by_tenant_and_name w.projects tenant name = none →
      findPlan w.plans sub.plan_id = some plan →
      (count_for_tenant w.projects tenant < plan.max_projects →
        (create_project w tenant tenant name newId now rpm).result
            = Except.ok (⟨newId, tenant, name, none⟩, "created")
        ∧ (create_project w tenant tenant name newId now rpm).world.projects
            = w.projects ++ [⟨newId, tenant, name, none⟩])
      ∧ (plan.max_projects ≤ count_for_tenant w.projects tenant →
        (create_project w tenant tenant name newId now rpm).result
            = Except.error .projectLimitReached
        ∧ (create_project w tenant tenant name newId now rpm).world.projects
            = w.projects)) := by
  constructor
  · intro existing hex
    unfold create_project
    simp [hrl, hsub, hex]
  · intro plan hnone hplan
    constructor
    · intro hcount
      unfold create_project
      simp [hrl, hsub, hnone, hplan, Nat.not_le.mpr hcount]
    · intro hcount
      unfold create_project
      simp [hrl, hsub, hnone, hplan, hcount]

/-- Concrete world for the C8 witness: `max_projects = 1` with one existing
project named `"chat"`. -/
def wC8 : World :=
  { redis := Redis.empty
    usage := []
    projects := [⟨"p1", "t1", "chat", none⟩]
    subs := [⟨"t1", "basic", "monthly", 1, 31⟩]
    plans := [⟨"basic", 1, 5, 1000⟩] }

/-- Witness for C8: a second (fresh-named) project is denied
`projectLimitReached`, while re-creating `"chat"` returns the existing row
and leaves the project table unchanged. -/
theorem project_creation_gate_witness :
    (create_project wC8 "t1" "t1" "other" "p2" 0 5).result
        = Except.error .projectLimitReached
    ∧ (create_project wC8 "t1" "t1" "chat" "p2" 0 5).result
        = Except.ok (⟨"p1", "t1", "chat", none⟩, "exists")
    ∧ (create_project wC8 "t1" "t1" "chat" "p2" 0 5).world.projects = wC8.projects := by
  have h1 := project_creation_gate wC8 "t1" "other" "p2" 0 5
      ⟨"t1", "basic", "monthly", 1, 31⟩ (by decide) (by decide)
  have h2 := project_creation_gate wC8 "t1" "chat" "p2" 0 5
      ⟨"t1", "basic", "monthly", 1, 31⟩ (by decide) (by decide)
  have ha := (h1.2 ⟨"basic", 1, 5, 1000⟩ (by decide) (by decide)).2 (by decide)
  have hb := h2.1 ⟨"p1", "t1", "chat", none⟩ (by decide)
  exact ⟨ha.1, hb.1, hb.2⟩

/-! ## C7 — check ordering -/

/-- Redis store in which tenant `t1`'s window-0 rate-limit counter already
stands at the cap (5), so any further rate-limit check in that window denies. -/
def stExhausted : Redis :=
  fun j => if j = RKey.rl "t1" 0 then some ⟨5, none⟩ else none

/-- World for the C7 counterexample, carrying the exhausted limiter. -/
def wC7 : World :=
  { redis := stExhausted
    usage := []
    projects := []
    subs := []
    plans := [⟨"basic", 1, 5, 1000⟩] }

/-- Counterexample to C7: on the metered `subscribe` endpoint the
billing-cycle validation runs before the rate-limit check — with the
tenant's window counter already at the cap (a further check denies, first
conjunct), a request with cycle `"weekly"` is still rejected as
`invalidCycle`, not `rateLimited`, so a rate-limit denial is not raised
before input validation. -/
theorem subscribe_validates_before_rate_limit :
    (check_rate_limit stExhausted "t1" 0 5).1 = false
    ∧ (subscribe wC7 "t1" "basic" "weekly" 0 0 5 30 365).result
        = Except.error .invalidCycle
    ∧ (subscribe wC7 "t1" "basic" "weekly" 0 0 5 30 365).result
        ≠ Except.error .rateLimited := by
  decide

/-- C7 amended: in the `ask` handler the rate-limit check does come first (a
denied limiter yields `rateLimited` whatever else holds) and the
duplicate-request check follows immediately, before any subscription or
quota lookup (a failed claim yields `duplicateRequest` for every subscription,
plan and usage state); but in `subscribe` the billing-cycle validation runs
before the rate limiter, so an invalid cycle is reported even when the
limiter would deny. -/
theorem gate_ordering_amended :
    (∀ (w : World) (tenant : String) (idem : Option String) (pid : String)
        (now today rpm : Nat) (upstream : Except String (String × Nat × Nat)),
      (check_rate_limit w.redis tenant now rpm).1 = false →
      (ask w tenant idem pid now today rpm upstream).result = Except.error .rateLimited)
    ∧ (∀ (w : World) (tenant : String) (idem : Option String) (pid : String)
        (now today rpm : Nat) (upstream : Except String (String × Nat × Nat)),
      (check_rate_limit w.redis tenant now rpm).1 = true →
      (ensure_idempotent (check_rate_limit w.redis tenant now rpm).2 tenant idem now).1
        = false →
      (ask w tenant idem pid now today rpm upstream).result
        = Except.error .duplicateRequest)
    ∧ (∀ (w : World) (tenant plan_id cycle : String) (now today rpm me ye : Nat),
      cycle ≠ "monthly" → cycle ≠ "annual" →
      (subscribe w tenant plan_id cycle now today rpm me ye).result
        = Except.error .invalidCycle) := by
  refine ⟨?_, ?_, ?_⟩
  · intro w tenant idem pid now today rpm upstream h
    rw [ask_rl_denied w tenant idem pid now today rpm upstream h]
  · intro w tenant idem pid now today rpm upstream hrl hid
    rw [ask_dup_denied w tenant idem pid now today rpm upstream hrl hid]
  · intro w tenant plan_id cycle now today rpm me ye hm ha
    unfold subscribe
    simp [hm, ha]

/-- Redis store in which tenant `t1` has already claimed idempotency key
`"k1"` (no expiry pressure at second 0). -/
def stClaimed : Redis :=
  fun j => if j = RKey.idemp "t1" "k1" then some ⟨1, some 1800⟩ else none

/-- World carrying the claimed idempotency key for the C7 amended witness. -/
def wC7b : World :=
  { redis := stClaimed
    usage := []
    projects := []
    subs := []
    plans := [] }

/-- Witness for the amended C7: a denied limiter makes `ask` return
`rateLimited`; with the limiter passing but the key already claimed — and no
subscription in the world at all — `ask` returns `duplicateRequest`, showing
the duplicate check precedes the subscription/quota checks; and `subscribe`
with cycle `"weekly"` reports `invalidCycle`. -/
theorem gate_ordering_amended_witness :
    (ask wC7 "t1" none "p1" 0 0 5 (Except.ok ("a", 1, 1))).result
        = Except.error .rateLimited
    ∧ (ask wC7b "t1" (some "k1") "p1" 0 0 5 (Except.ok ("a", 1, 1))).result
        = Except.error .duplicateRequest
    ∧ (subscribe wC7b "t1" "basic" "weekly" 0 0 5 30 365).result
        = Except.error .invalidCycle := by
  refine ⟨?_, ?_, ?_⟩
  · exact gate_ordering_amended.1 wC7 "t1" none "p1" 0 0 5 (Except.ok ("a", 1, 1)) (by decide)
  · exact gate_ordering_amended.2.1 wC7b "t1" (some "k1") "p1" 0 0 5 (Except.ok ("a", 1, 1))
      (by decide) (by decide)
  · exact gate_ordering_amended.2.2 wC7b "t1" "basic" "weekly" 0 0 5 30 365
      (by decide) (by decide)

/-! ## C9 — upload batch character counting -/

/-- Counterexample to C9: for the one-file batch `[0xFF]` (not meaningful as
UTF-8) the code counts 0 characters — `decode("utf-8", "ignore")` drops the
invalid byte — while the spec's byte-length fallback would count 1, so the
gate's count does not equal the spec's described count. -/
theorem upload_char_count_counterexample :
    batchTotalChars [[255]] = 0
    ∧ specBatchTotalChars [[255]] = 1
    ∧ batchTotalChars [[255]] ≠ specBatchTotalChars [[255]] := by
  decide

/-- C9 amended: the gate's batch character count is the sum over the files of
the length of the file decoded as UTF-8 with invalid bytes ignored
(dropped); the raw-byte-length fallback in the source is unreachable because
decoding with the `ignore` error handler never raises, so the count agrees
with the spec's description exactly on batches whose files are all valid
UTF-8. -/
theorem upload_char_count_amended (files : List (List Nat)) :
    batchTotalChars files = (files.map fileCharCount).sum
    ∧ ((∀ f ∈ files, validUTF8 f = true) →
        batchTotalChars files = specBatchTotalChars files) := by
  constructor
  · simpa [batchTotalChars] using foldl_add_init fileCharCount files 0
  · intro hv
    have h1 : batchTotalChars files = (files.map fileCharCount).sum := by
      simpa [batchTotalChars] using foldl_add_init fileCharCount files 0
    rw [h1, specBatchTotalChars]
    congr 1
    apply List.map_congr_left
    intro f hf
    simp [fileCharCount, specFileCharCount, hv f hf]

/-- Witness for the amended C9 on a concrete two-file all-valid-UTF-8 batch:
the loop total, the per-file sum and the spec count all agree (3 chars). -/
theorem upload_char_count_amended_witness :
    batchTotalChars [[65, 66], [195, 169]] = ([[65, 66], [195, 169]].map fileCharCount).sum
    ∧ batchTotalChars [[65, 66], [195, 169]] = specBatchTotalChars [[65, 66], [195, 169]]
    ∧ batchTotalChars [[65, 66], [195, 169]] = 3 := by
  have h := upload_char_count_amended [[65, 66], [195, 169]]
  exact ⟨h.1, h.2 (by decide), by decide⟩

/-! ## C10 — a denied ask still burns the idempotency key -/

/-- C10: an ask carrying an idempotency key that clears the rate limiter but
is then denied before the metered action (project not found, vector store
missing, no subscription, plan data missing, or message cap reached) has
already claimed `(tenant, key)` with the 30-minute deadline, so an identical
retry inside that window — even of a different project id — is rejected as a
duplicate although the original performed no action. -/
theorem denied_ask_still_claims_key (w : World) (tenant k pid pid2 : String)
    (now1 now2 today rpm : Nat)
    (upstream upstream2 : Except String (String × Nat × Nat))
    (hk : k ≠ "")
    (hres : (ask w tenant (some k) pid now1 today rpm upstream).result
        ∈ ([Except.error .projectNotFound, Except.error .vectorStoreMissing,
            Except.error .noActiveSubscription, Except.error .planDataMissing,
            Except.error .messageCapReached] : List (Except Outcome AskResp)))
    (hnow : now2 < now1 + 60 * 30)
    (hrl2 : (check_rate_limit
        (ask w tenant (some k) pid now1 today rpm upstream).world.redis tenant now2 rpm).1
        = true) :
    (ask w tenant (some k) pid now1 today rpm upstream).world.redis (RKey.idemp tenant k)
        = some ⟨1, some (now1 + 60 * 30)⟩
    ∧ (ask (ask w tenant (some k) pid now1 today rpm upstream).world tenant (some k) pid2
        now2 today rpm upstream2).result = Except.error .duplicateRequest := by
  have hrl1 : (check_rate_limit w.redis tenant now1 rpm).1 = true := by
    by_contra hc
    rw [ask_rl_denied w tenant (some k) pid now1 today rpm upstream
      (Bool.not_eq_true _ ▸ hc)] at hres
    simp at hres
  have hid1 : (ensure_idempotent (check_rate_limit w.redis tenant now1 rpm).2 tenant
      (some k) now1).1 = true := by
    by_contra hc
    rw [ask_dup_denied w tenant (some k) pid now1 today rpm upstream hrl1
      (Bool.not_eq_true _ ▸ hc)] at hres
    simp at hres
  have hfresh : rlive now1 ((check_rate_limit w.redis tenant now1 rpm).2
      (RKey.idemp tenant k)) = none := by
    by_contra hc
    cases hlv : rlive now1 ((check_rate_limit w.redis tenant now1 rpm).2
        (RKey.idemp tenant k)) with
    | none => exact hc hlv
    | some v =>
      rw [ensure_idempotent, if_neg hk] at hid1
      unfold rsetnx at hid1
      rw [hlv] at hid1
      simp at hid1
  have hset : (ensure_idempotent (check_rate_limit w.redis tenant now1 rpm).2 tenant
      (some k) now1).2 (RKey.idemp tenant k) = some ⟨1, some (now1 + 60 * 30)⟩ := by
    rw [ensure_idempotent, if_neg hk]
    unfold rsetnx
    rw [hfresh]
    simp
  have hredis := ask_redis_after_guards w tenant (some k) pid now1 today rpm upstream hrl1
  constructor
  · rw [hredis, hset]
  · have hne : RKey.idemp tenant k ≠ RKey.rl tenant (now2 / 60) := fun hc => by cases hc
    have hkey2 : (check_rate_limit
        (ask w tenant (some k) pid now1 today rpm upstream).world.redis tenant now2 rpm).2
          (RKey.idemp tenant k) = some ⟨1, some (now1 + 60 * 30)⟩ := by
      rw [check_rate_limit_other_keys _ tenant now2 rpm _ hne, hredis, hset]
    have hid2 : (ensure_idempotent (check_rate_limit
        (ask w tenant (some k) pid now1 today rpm upstream).world.redis tenant now2 rpm).2
          tenant (some k) now2).1 = false := by
      rw [ensure_idempotent, if_neg hk]
      unfold rsetnx
      rw [hkey2]
      simp [rlive, hnow]
    rw [ask_dup_denied _ tenant (some k) pid2 now2 today rpm upstream2 hrl2 hid2]

/-- Empty world for the C10 witness: no projects at all, so the first ask is
denied with `projectNotFound` after the guards have run. -/
def wC10 : World :=
  { redis := Redis.empty
    usage := []
    projects := []
    subs := []
    plans := [] }

/-- Witness for C10: the first keyed ask is denied `projectNotFound`, yet the
key is claimed until second 1800, and the retry at second 1 is rejected as a
duplicate. -/
theorem denied_ask_still_claims_key_witness :
    (ask wC10 "t1" (some "key1") "p1" 0 0 5 (Except.ok ("a", 1, 1))).result
        = Except.error .projectNotFound
    ∧ (ask wC10 "t1" (some "key1") "p1" 0 0 5
        (Except.ok ("a", 1, 1))).world.redis (RKey.idemp "t1" "key1")
        = some ⟨1, some (0 + 60 * 30)⟩
    ∧ (ask (ask wC10 "t1" (some "key1") "p1" 0 0 5 (Except.ok ("a", 1, 1))).world
        "t1" (some "key1") "p1" 1 0 5 (Except.ok ("a", 1, 1))).result
        = Except.error .duplicateRequest := by
  have h := denied_ask_still_claims_key wC10 "t1" "key1" "p1" "p1" 0 1 0 5
      (Except.ok ("a", 1, 1)) (Except.ok ("a", 1, 1))
      (by decide) (by decide) (by decide) (by decide)
  exact ⟨by decide, h.1, h.2⟩

end Saas
